import Mathlib

/-!
# Verification of the email_ai conversation core

Shallow embedding of the conversation-context accumulation and
prompt-construction engine of the `email_ai` repository, together with
proofs about it.

The embedding translates, from the Python sources:

* `services/ollama_service.py` : `generate_email_reply_with_context`,
  `generate_chat_response_with_context`, `_build_conversation_context`,
  `_format_email_reply`;
* `services/file_service.py` : `extract_subject_from_text`,
  `save_chat_message`, `clear_chat_history`, `mark_reply_generated`;
* `routes/chat_routes.py` : `handle_chat_thread`,
  `_get_conversation_summary`, `regenerate_last_response`;
* `routes/file_routes.py` : `summarize_document`, `mark_replied`.

Python strings are modelled as Lean `String` with explicit, list-of-chars
based re-implementations of the Python primitives used by the source
(`str.strip`, `str.lower`, `str.startswith`, `in` substring test,
`str.split('\n')`, slicing), so that everything is executable and the
kernel can evaluate concrete runs.  The generative backend (an HTTP
round trip in the source) is modelled as a function from the prompt that
would be posted to an abstract outcome: a 200 response with a body, a
non-200 response, or a raised exception.  Dictionary-valued results are
modelled as structures whose optional fields record which keys the
Python dict actually carries.
-/

/-! ## Python string primitives -/

/-- Python `str.isspace` / `\s` character class: space, tab, newline,
carriage return, vertical tab, form feed. -/
def pyIsSpace (c : Char) : Bool :=
  c == ' ' || c == '\t' || c == '\n' || c == '\r' || c == '\x0b' || c == '\x0c'

/-- Python `str.strip()` on a list of characters. -/
def pyStripChars (l : List Char) : List Char :=
  ((l.dropWhile pyIsSpace).reverse.dropWhile pyIsSpace).reverse

/-- Python `str.strip()`. -/
def pyStrip (s : String) : String :=
  String.mk (pyStripChars s.data)

/-- Python `str.lower()` (ASCII-adequate, as in the source's usage). -/
def pyLower (s : String) : String :=
  String.mk (s.data.map Char.toLower)

/-- Whether `p` is a prefix of `l` (Python `str.startswith`, char lists). -/
def isPre : List Char → List Char → Bool
  | [], _ => true
  | _ :: _, [] => false
  | a :: as, b :: bs => a == b && isPre as bs

/-- Python `needle in hay` substring test on char lists. -/
def hasSubChars (hay needle : List Char) : Bool :=
  isPre needle hay ||
    match hay with
    | [] => false
    | _ :: t => hasSubChars t needle

/-- Python `needle in hay` substring test on strings. -/
def hasSub (hay needle : String) : Bool :=
  hasSubChars hay.data needle.data

/-- Python `hay.startswith(p)`. -/
def pyStartsWith (hay p : String) : Bool :=
  isPre p.data hay.data

/-- Python `hay.startswith((p1, p2, ...))`. -/
def pyStartsWithAny (hay : String) (ps : List String) : Bool :=
  ps.any (fun p => pyStartsWith hay p)

/-- Python `hay.endswith((p1, p2, ...))`. -/
def pyEndsWithAny (hay : String) (ps : List String) : Bool :=
  ps.any (fun p => isPre p.data.reverse hay.data.reverse)

/-- Python `text.split('\n')` on a list of characters. -/
def splitNl : List Char → List (List Char)
  | [] => [[]]
  | c :: rest =>
    if c == '\n' then [] :: splitNl rest
    else
      match splitNl rest with
      | l :: ls => (c :: l) :: ls
      | [] => [[c]]

/-- Python `text.split('\n')`. -/
def pySplitLines (s : String) : List String :=
  (splitNl s.data).map String.mk

/-- Python `sep.join(xs)`. -/
def pyJoin (sep : String) : List String → String
  | [] => ""
  | [x] => x
  | x :: y :: xs => x ++ sep ++ pyJoin sep (y :: xs)

/-- Python `s[:n]` (slicing by code points). -/
def pySlice (s : String) (n : Nat) : String :=
  String.mk (s.data.take n)

/-! ## Data model

A chat message as stored in a thread's `chat_history`.  The source
stores messages as dicts and always reads the keys below with
`.get(key, default)`; auxiliary diagnostic keys that no code path ever
reads back (`context_info`, `regenerated`) are not modelled. -/

/-- One chat turn, as persisted in `chat_history` (source message dicts:
`text`, `isUser`, `isReply`, `type`, `timestamp`). -/
structure Msg where
  text : String
  isUser : Bool
  isReply : Bool
  type : String
  timestamp : String
deriving DecidableEq, Repr

/-- Per-document thread metadata record (`file_service.save_file` fields
that the verified operations read or write). -/
structure ThreadInfo where
  thread_id : String
  subject : String
  full_content : String
  has_reply : Bool
  final_reply : Option String
  reply_generated_date : Option String
  due_date : String
  chat_history : List Msg
deriving DecidableEq, Repr

/-- Outcome of one HTTP round trip to the generative backend:
a 200 response with a body, a non-200 status, or a raised exception. -/
inductive BackendOutcome where
  | ok (body : String)
  | httpError (code : Nat)
  | exn
deriving DecidableEq, Repr

/-- A backend outcome that is a failure (non-200 status or exception). -/
def BackendOutcome.isFailure : BackendOutcome → Bool
  | .ok _ => false
  | .httpError _ => true
  | .exn => true

/-- The generative backend, as a function from the prompt that
`requests.post` would send to the outcome of the round trip. -/
abbrev Backend := String → BackendOutcome

/-- Result dict of the two `OllamaService.generate_*_with_context`
methods: `success` plus the optional `error` / `response` keys the
Python dict actually carries. -/
structure GenResult where
  success : Bool
  error : Option String
  response : Option String
deriving DecidableEq, Repr

/-- A JSON response of a route handler: success flag, optional
`response` / `error` strings, optional `is_email_reply`, HTTP status. -/
structure ChatResponse where
  success : Bool
  response : Option String
  error : Option String
  is_email_reply : Option Bool
  status : Nat
deriving DecidableEq, Repr

/-! ## Conversation context (`OllamaService._build_conversation_context`)

The loop `for i, msg in enumerate(chat_history, 1)` classifies each turn
into one of three rendered-line lists. -/

/-- Rendered line for a user turn (`"User Request {i} ({timestamp}): {text}"`). -/
def userRequestLine (i : Nat) (m : Msg) : String :=
  "User Request " ++ toString i ++ " (" ++ m.timestamp ++ "): " ++ m.text

/-- Rendered line for an assistant email-reply turn. -/
def generatedEmailLine (i : Nat) (m : Msg) : String :=
  "Generated Email " ++ toString i ++ " (" ++ m.timestamp ++ "): " ++ m.text

/-- Rendered line for an assistant general-response turn. -/
def aiResponseLine (i : Nat) (m : Msg) : String :=
  "AI Response " ++ toString i ++ " (" ++ m.timestamp ++ "): " ++ m.text

/-- The source loop, classifying each enumerated turn into
(user_requests, ai_responses, email_replies). -/
def classifyHistory : Nat → List Msg → List String × List String × List String
  | _, [] => ([], [], [])
  | i, m :: rest =>
    let (u, a, e) := classifyHistory (i + 1) rest
    if m.isUser then (userRequestLine i m :: u, a, e)
    else if m.isReply then (u, a, generatedEmailLine i m :: e)
    else (u, aiResponseLine i m :: a, e)

/-- Python `lst[-n:]` (the last `n` elements; whole list when shorter). -/
def lastN (n : Nat) (l : List String) : List String :=
  l.drop (l.length - n)

/-- The `_build_conversation_context` method.  The helper
`_extract_important_information` joins Python `set(...)` objects whose
iteration order is process-nondeterministic (string hashing), so the key
information block is passed in as an explicit function `extractInfo`
from the concatenated user text; every theorem below holds for every
such function. -/
def build_conversation_context (extractInfo : String → String)
    (chat_history : List Msg) (current_message : String) : String :=
  if chat_history.isEmpty then
    "This is the first message in our conversation: " ++ current_message
  else
    let (user_requests, ai_responses, email_replies) := classifyHistory 1 chat_history
    let parts1 := ["=== COMPLETE CONVERSATION HISTORY ==="]
    let parts2 :=
      if user_requests.isEmpty then []
      else "\n=== ALL USER REQUESTS AND INFORMATION ===" :: user_requests
    let parts3 :=
      if ai_responses.isEmpty then []
      else "\n=== PREVIOUS AI RESPONSES ===" :: lastN 3 ai_responses
    let parts4 :=
      if email_replies.isEmpty then []
      else "\n=== PREVIOUSLY GENERATED EMAILS ===" :: lastN 2 email_replies
    let all_user_text :=
      pyJoin " " ((chat_history.filter (fun m => m.isUser)).map (fun m => m.text))
        ++ " " ++ current_message
    let important_info := extractInfo all_user_text
    let parts5 :=
      if important_info == "" then []
      else ["\n=== KEY INFORMATION TO REMEMBER ===", important_info]
    let parts6 := ["\n=== CURRENT REQUEST ===", "Current message: " ++ current_message]
    pyJoin "\n" (parts1 ++ parts2 ++ parts3 ++ parts4 ++ parts5 ++ parts6)

/-! Specification-side characterisations of the three classified lists,
written independently of the fold above (filter/map over the enumerated
history), to be proved equal to the fold. -/

/-- All user-turn lines, in order, each with its 1-based ordinal. -/
def userLinesSpec (i : Nat) (h : List Msg) : List String :=
  ((h.enumFrom i).filter (fun p => p.2.isUser)).map (fun p => userRequestLine p.1 p.2)

/-- All assistant general-response lines, in order. -/
def aiLinesSpec (i : Nat) (h : List Msg) : List String :=
  ((h.enumFrom i).filter (fun p => !p.2.isUser && !p.2.isReply)).map
    (fun p => aiResponseLine p.1 p.2)

/-- All assistant email-reply lines, in order. -/
def emailLinesSpec (i : Nat) (h : List Msg) : List String :=
  ((h.enumFrom i).filter (fun p => !p.2.isUser && p.2.isReply)).map
    (fun p => generatedEmailLine p.1 p.2)

/-! ## Email reformatting (`OllamaService._format_email_reply`) -/

/-- Accumulator of the line-classification loop in `_format_email_reply`. -/
structure EmailParts where
  subject_line : String
  greeting : String
  closing : String
  signature : String
  body : List String
deriving DecidableEq, Repr

/-- The `while i < len(lines)` loop of `_format_email_reply`: classify
each (already stripped, nonempty) line; a closing line consumes the
following line as the signature. -/
def scanEmailLines : List String → EmailParts → EmailParts
  | [], st => st
  | line :: rest, st =>
    if pyStartsWithAny (pyLower line) ["subject:", "re:", "fw:"] then
      scanEmailLines rest { st with subject_line := line }
    else if pyStartsWithAny (pyLower line) ["dear ", "hello ", "hi ", "greetings"] then
      scanEmailLines rest { st with greeting := line }
    else if pyStartsWithAny (pyLower line)
        ["best regards", "sincerely", "thank you", "thanks", "kind regards", "yours truly"] then
      match rest with
      | next :: rest2 => scanEmailLines rest2 { st with closing := line, signature := next }
      | [] => scanEmailLines [] { st with closing := line }
    else if pyStartsWithAny (pyLower line) ["please note", "note:"] then
      scanEmailLines rest st
    else
      scanEmailLines rest { st with body := st.body ++ [line] }

/-- Body-paragraph accumulation loop of `_format_email_reply`:
bullets flush the current paragraph; sentence-ending lines flush once
the joined paragraph exceeds 100 characters. -/
def buildBody : List String → List String → String → String
  | [], current, acc =>
    if current.isEmpty then acc else acc ++ pyJoin " " current ++ "\n\n"
  | line :: rest, current, acc =>
    if pyStartsWithAny line ["* ", "â€¢ ", "- ", "1. ", "2. ", "3. ", "4. ", "5. "] then
      let acc := if current.isEmpty then acc else acc ++ pyJoin " " current ++ "\n\n"
      buildBody rest [] (acc ++ line ++ "\n")
    else if pyEndsWithAny line [".", "!", "?", ":"] then
      let current := current ++ [line]
      if (pyJoin " " current).length > 100 then
        buildBody rest [] (acc ++ pyJoin " " current ++ "\n\n")
      else
        buildBody rest current acc
    else
      buildBody rest (current ++ [line]) acc

/-- The `_format_email_reply` method. -/
def format_email_reply (raw_email : String) : String :=
  let lines := ((pySplitLines raw_email).map pyStrip).filter (fun l => !(l == ""))
  let st := scanEmailLines lines
    { subject_line := "", greeting := "", closing := "", signature := "", body := [] }
  let formatted := ""
  let formatted := if st.subject_line == "" then formatted
    else formatted ++ st.subject_line ++ "\n\n"
  let formatted := if st.greeting == "" then formatted
    else formatted ++ st.greeting ++ "\n\n"
  let formatted := if st.body.isEmpty then formatted else buildBody st.body [] formatted
  let formatted := if st.closing == "" then formatted
    else formatted ++ st.closing ++ "\n"
  let formatted := if st.signature == "" then formatted
    else formatted ++ st.signature ++ "\n"
  pyStrip formatted

/-! ## Email-intent keyword lists

Three distinct hard-coded lists appear in the source: one in
`OllamaService.generate_chat_response_with_context`, one in
`handle_chat_thread`, one in `regenerate_last_response`. -/

/-- Keyword list of `generate_chat_response_with_context` (service). -/
def serviceEmailKeywords : List String :=
  ["generate reply", "create reply", "write reply", "email reply",
   "respond to", "draft reply", "compose reply", "reply to this",
   "generate email", "create email", "write email", "draft email",
   "professional reply", "formal reply", "make email", "write an email"]

/-- Keyword list of `handle_chat_thread` (route). -/
def routeEmailKeywords : List String :=
  ["generate reply", "create reply", "write reply", "email reply",
   "respond to", "draft reply", "compose reply", "reply to this",
   "generate email", "create email", "write email", "draft email",
   "make email", "create an email", "write an email", "send email",
   "professional reply", "formal reply", "write a response"]

/-- Keyword list of `regenerate_last_response` (route). -/
def regenEmailKeywords : List String :=
  ["generate reply", "create reply", "write reply", "email reply",
   "respond to", "draft reply", "compose reply", "reply to this",
   "generate email", "create email", "write email", "draft email"]

/-- The source's `any(keyword in msg.lower() for keyword in kws)`. -/
def isEmailRequestAgainst (kws : List String) (msg : String) : Bool :=
  kws.any (fun k => hasSub (pyLower msg) k)

/-- Email-intent detection of `generate_chat_response_with_context`. -/
def serviceIsEmailRequest (msg : String) : Bool :=
  isEmailRequestAgainst serviceEmailKeywords msg

/-- Email-intent detection of `handle_chat_thread`. -/
def routeIsEmailRequest (msg : String) : Bool :=
  isEmailRequestAgainst routeEmailKeywords msg

/-- Email-intent detection of `regenerate_last_response`. -/
def regenIsEmailRequest (msg : String) : Bool :=
  isEmailRequestAgainst regenEmailKeywords msg

/-! ## Generation services (`OllamaService`) -/

/-- The `context` dict handed to `generate_email_reply_with_context`
(the keys it reads: `document_subject`, `chat_history`). -/
structure GenContext where
  document_subject : String
  chat_history : List Msg
deriving Repr

/-- Prompt built by `generate_email_reply_with_context`. -/
def emailPrompt (document_content conversation_context user_request subject : String) :
    String :=
  "You are a professional email assistant with perfect memory. You remember ALL previous conversations and requests from the user in this session.\n\nDOCUMENT CONTENT:\n"
  ++ pySlice document_content 2000
  ++ "...\n\nCONVERSATION HISTORY AND CONTEXT:\n"
  ++ conversation_context
  ++ "\n\nCURRENT USER REQUEST:\n"
  ++ user_request
  ++ "\n\nDOCUMENT SUBJECT: "
  ++ subject
  ++ "\n\nIMPORTANT INSTRUCTIONS:\n1. Remember and consider ALL previous information the user has provided in this conversation\n2. Build upon previous requests and information - don\x27t ignore or forget anything\n3. If the user is adding more information, incorporate it with previously provided details\n4. Generate a comprehensive email reply that considers the ENTIRE conversation context\n5. Use proper email formatting with clear structure\n\nPlease generate a professional email reply that incorporates ALL the information from our entire conversation:"

/-- Conversion of the round-trip outcome into the result dict of
`generate_email_reply_with_context`: a non-200 status yields
`{success: False, error: 'Failed to generate email reply'}`; a raised
exception yields `{success: False, error: 'Email generation failed'}`;
neither failure dict carries a `response` key. -/
def emailResultOfOutcome : BackendOutcome → GenResult
  | .ok body =>
      { success := true, error := none, response := some (format_email_reply (pyStrip body)) }
  | .httpError _ =>
      { success := false, error := some "Failed to generate email reply", response := none }
  | .exn =>
      { success := false, error := some "Email generation failed", response := none }

/-- The `generate_email_reply_with_context` method: build the prompt,
post it, and convert the round-trip outcome into a result dict. -/
def generate_email_reply_with_context (extractInfo : String → String) (bk : Backend)
    (document_content user_request : String) (context : Option GenContext) : GenResult :=
  let chat_history := match context with
    | some c => c.chat_history
    | none => []
  let conversation_context := build_conversation_context extractInfo chat_history user_request
  let subject := match context with
    | some c => c.document_subject
    | none => "N/A"
  let prompt := emailPrompt document_content conversation_context user_request subject
  emailResultOfOutcome (bk prompt)

/-- Prompt built by the general-conversation path of
`generate_chat_response_with_context`. -/
def chatPrompt (subject document_content conversation_context user_message : String) :
    String :=
  "You are an AI assistant with perfect memory helping with document analysis and email generation. You remember ALL previous conversations in this session.\n\nDOCUMENT SUMMARY:\nSubject: \""
  ++ subject
  ++ "\"\nContent: "
  ++ pySlice document_content 1000
  ++ "...\n\nCOMPLETE CONVERSATION CONTEXT:\n"
  ++ conversation_context
  ++ "\n\nCURRENT USER MESSAGE: "
  ++ user_message
  ++ "\n\nIMPORTANT: \n- Remember ALL previous information the user has shared\n- Build upon previous requests and conversations\n- If user is adding more details, combine them with previous information\n- Provide helpful responses that acknowledge the full conversation history\n\nYou can help with:\n- Analyzing the document and answering questions\n- Generating different types of email replies\n- Modifying tone and style based on accumulated preferences\n- Including specific information from our entire conversation\n- General guidance based on our discussion history\n\nPlease provide a helpful response that considers our ENTIRE conversation:"

/-- Conversion of the round-trip outcome into the result dict of the
general path of `generate_chat_response_with_context`: any failure
(non-200 or exception) yields the fixed fallback dict `{success: False,
response: 'I encountered an error. Please try again.'}` with no `error`
key. -/
def chatResultOfOutcome : BackendOutcome → GenResult
  | .ok body =>
      { success := true, error := none, response := some (pyStrip body) }
  | .httpError _ =>
      { success := false, error := none,
        response := some "I encountered an error. Please try again." }
  | .exn =>
      { success := false, error := none,
        response := some "I encountered an error. Please try again." }

/-- The general-conversation path and the email-intent delegation of
`generate_chat_response_with_context`. -/
def generate_chat_response_with_context (extractInfo : String → String) (bk : Backend)
    (user_message document_content : String) (selected_file : ThreadInfo)
    (chat_history : List Msg) : GenResult :=
  if serviceIsEmailRequest user_message then
    generate_email_reply_with_context extractInfo bk document_content user_message
      (some { document_subject := selected_file.subject, chat_history := chat_history })
  else
    let conversation_context := build_conversation_context extractInfo chat_history user_message
    let prompt := chatPrompt selected_file.subject document_content conversation_context
      user_message
    chatResultOfOutcome (bk prompt)

/-! ## Thread store operations (`FileService`) -/

/-- The `save_chat_message` method on a found thread record: the message
is appended with its `timestamp` overwritten by the current time. -/
def save_chat_message (t : ThreadInfo) (m : Msg) (now : String) : ThreadInfo :=
  { t with chat_history := t.chat_history ++ [{ m with timestamp := now }] }

/-- The `clear_chat_history` method on a found thread record. -/
def clear_chat_history (t : ThreadInfo) : ThreadInfo :=
  { t with chat_history := [] }

/-- The `mark_reply_generated` method on a found thread record. -/
def mark_reply_generated (t : ThreadInfo) (reply_content : String) (now : String) :
    ThreadInfo :=
  { t with has_reply := true, reply_generated_date := some now,
           final_reply := some reply_content }

/-! ## Conversation summary (`chat_routes._get_conversation_summary`) -/

/-- Result of `_get_conversation_summary`: the empty history returns the
literal string `"No previous conversation"`, every other history a
statistics record. -/
inductive ConvSummary where
  | noConversation (s : String)
  | stats (total_exchanges user_requests ai_responses emails_generated : Nat)
      (conversation_start latest_activity : Option String)
      (conversation_active : Bool)
deriving DecidableEq, Repr

/-- The `_get_conversation_summary` helper. -/
def conversation_summary (chat_history : List Msg) : ConvSummary :=
  if chat_history.isEmpty then
    .noConversation "No previous conversation"
  else
    .stats (chat_history.length / 2)
      ((chat_history.filter (fun m => m.isUser)).length)
      ((chat_history.filter (fun m => !m.isUser)).length)
      ((chat_history.filter (fun m => m.isReply)).length)
      (chat_history.head?.map (fun m => m.timestamp))
      (chat_history.getLast?.map (fun m => m.timestamp))
      true

/-- The `total_exchanges` field of a summary, when the summary has one. -/
def ConvSummary.totalExchanges? : ConvSummary → Option Nat
  | .noConversation _ => none
  | .stats te _ _ _ _ _ _ => some te

/-! ## The chat-thread turn handler (`chat_routes.handle_chat_thread`)

Route-level concerns abstracted: the JSON body is the pair
(message, filename-resolved thread lookup); timestamps are a single
`now` string (every `datetime.now()` in one request renders within the
same second in the source's format). -/

/-- The stored user-message dict of `handle_chat_thread`. -/
def mkUserMsg (text now : String) : Msg :=
  { text := text, isUser := true, isReply := false, type := "user_message",
    timestamp := now }

/-- The fixed fallback assistant turn appended by `handle_chat_thread`
when generation failed. -/
def chatErrorTurn (now : String) : Msg :=
  { text := "I encountered an error processing your request. Please try again.",
    isUser := false, isReply := false, type := "error_response", timestamp := now }

/-- General-conversation tail of `handle_chat_thread` (the code after
the email-request block, reached either because the turn is not an email
request or because email generation failed): `thread1` already holds the
appended user message. -/
def handleGeneralTurn (extractInfo : String → String) (bk : Backend)
    (thread thread1 : ThreadInfo) (user_message now : String) :
    Option ThreadInfo × ChatResponse :=
  let chat_history := thread1.chat_history
  let result := generate_chat_response_with_context extractInfo bk user_message
    thread.full_content thread chat_history
  if result.success then
    let ai_msg : Msg :=
      { text := result.response.getD "", isUser := false, isReply := false,
        type := "general_response", timestamp := now }
    let thread2 := save_chat_message thread1 ai_msg now
    (some thread2,
      { success := true,
        response := some (result.response.getD "I encountered an error. Please try again."),
        error := none, is_email_reply := some false, status := 200 })
  else
    let thread2 := save_chat_message thread1 (chatErrorTurn now) now
    (some thread2,
      { success := false, response := some (chatErrorTurn now).text,
        error := some "AI processing error", is_email_reply := none, status := 200 })

/-- The `handle_chat_thread` route handler over a resolved thread
lookup (`none` models the 404 path). -/
def handle_chat_thread (extractInfo : String → String) (bk : Backend)
    (threadLookup : Option ThreadInfo) (message now : String) :
    Option ThreadInfo × ChatResponse :=
  let user_message := pyStrip message
  if user_message == "" then
    (threadLookup,
      { success := false, response := none, error := some "Message cannot be empty",
        is_email_reply := none, status := 400 })
  else
    match threadLookup with
    | none =>
        (none,
          { success := false, response := none, error := some "File not found",
            is_email_reply := none, status := 404 })
    | some thread =>
        let thread1 := save_chat_message thread (mkUserMsg user_message now) now
        let chat_history := thread1.chat_history
        let document_content := thread.full_content
        if routeIsEmailRequest user_message then
          let result := generate_email_reply_with_context extractInfo bk document_content
            user_message
            (some { document_subject := thread.subject, chat_history := chat_history })
          if result.success then
            let ai_msg : Msg :=
              { text := result.response.getD "", isUser := false, isReply := true,
                type := "email_reply", timestamp := now }
            let thread2 := save_chat_message thread1 ai_msg now
            let thread3 := mark_reply_generated thread2 (result.response.getD "") now
            (some thread3,
              { success := true, response := result.response, error := none,
                is_email_reply := some true, status := 200 })
          else
            handleGeneralTurn extractInfo bk thread thread1 user_message now
        else
          handleGeneralTurn extractInfo bk thread thread1 user_message now

/-! ## Regeneration (`chat_routes.regenerate_last_response`) -/

/-- The trailing-assistant-turn removal step of
`regenerate_last_response` (`if chat_history and not
chat_history[-1].get('isUser', False): chat_history = chat_history[:-1]`). -/
def removeLastAiResponse (h : List Msg) : List Msg :=
  match h.getLast? with
  | some m => if m.isUser then h else h.dropLast
  | none => h

/-- The `regenerate_last_response` route handler over a resolved thread
lookup.  On backend failure it answers 500 without persisting any new
turn (the truncation, if any, has already been persisted). -/
def regenerate_last_response (extractInfo : String → String) (bk : Backend)
    (threadLookup : Option ThreadInfo) (now : String) :
    Option ThreadInfo × ChatResponse :=
  match threadLookup with
  | none =>
      (none,
        { success := false, response := none, error := some "Thread not found",
          is_email_reply := none, status := 404 })
  | some thread =>
      let chat_history := thread.chat_history
      if !chat_history.any (fun m => m.isUser) then
        (some thread,
          { success := false, response := none,
            error := some "No user messages to regenerate response for",
            is_email_reply := none, status := 400 })
      else
        let last_user_text :=
          ((chat_history.reverse.find? (fun m => m.isUser)).map (fun m => m.text)).getD ""
        let chat_history2 := removeLastAiResponse chat_history
        let thread2 := { thread with chat_history := chat_history2 }
        let is_email_request := regenIsEmailRequest last_user_text
        let result :=
          if is_email_request then
            generate_email_reply_with_context extractInfo bk thread.full_content
              last_user_text
              (some { document_subject := thread.subject, chat_history := chat_history2 })
          else
            generate_chat_response_with_context extractInfo bk last_user_text
              thread.full_content thread chat_history2
        if result.success then
          let ai_msg : Msg :=
            { text := result.response.getD "", isUser := false,
              isReply := is_email_request,
              type := if is_email_request then "email_reply" else "general_response",
              timestamp := now }
          let thread3 := save_chat_message thread2 ai_msg now
          (some thread3,
            { success := true, response := result.response, error := none,
              is_email_reply := some is_email_request, status := 200 })
        else
          (some thread2,
            { success := false, response := none,
              error := some "Failed to regenerate response",
              is_email_reply := none, status := 500 })

/-! ## Mark-replied route (`file_routes.mark_replied`) -/

/-- The `mark_replied` route handler over a found thread record: only a
`manual_completion` request invokes `mark_reply_generated`. -/
def mark_replied (t : ThreadInfo) (reply_content : String) (manual_completion : Bool)
    (now : String) : ThreadInfo × ChatResponse :=
  if reply_content == "" then
    (t, { success := false, response := none, error := some "Reply content is required",
          is_email_reply := none, status := 400 })
  else if manual_completion then
    (mark_reply_generated t reply_content now,
      { success := true, response := some "File marked as completed successfully",
        error := none, is_email_reply := none, status := 200 })
  else
    (t, { success := true, response := some "Reply generated but not marked as completed",
          error := none, is_email_reply := none, status := 200 })

/-! ## Subject extraction (`FileService.extract_subject_from_text`)

The source runs `re.search(r'KEY\s*(.+?)(?:\n|$)', text, re.IGNORECASE)`
for each of the keys `Subject:`, `RE:`, `FW:`, `SUBJECT:` in order.  The
regex semantics specialise to: find the leftmost occurrence of the key
(case-insensitively); after it the greedy `\s*` consumes the longest
whitespace run that still leaves a nonempty run of non-newline
characters for the lazy `(.+?)(?:\n|$)`, which then captures exactly up
to the next newline or the end of the text; if no backtracking depth
works, the search resumes one character further right. -/

/-- Case-insensitive prefix test (the key is given lower-case). -/
def isPreCI : List Char → List Char → Bool
  | [], _ => true
  | _ :: _, [] => false
  | k :: ks, c :: cs => (k == c.toLower) && isPreCI ks cs

/-- Backtracking over the `\s*` length `t` (tried from its maximum down
to 0): the capture is the run of non-newline characters after the
consumed whitespace, provided that run is nonempty. -/
def capTryFrom (cs : List Char) : Nat → Option (List Char)
  | 0 =>
    if (cs.takeWhile (fun c => !(c == '\n'))).isEmpty then none
    else some (cs.takeWhile (fun c => !(c == '\n')))
  | t + 1 =>
    if ((cs.drop (t + 1)).takeWhile (fun c => !(c == '\n'))).isEmpty then capTryFrom cs t
    else some ((cs.drop (t + 1)).takeWhile (fun c => !(c == '\n')))

/-- Matching `\s*(.+?)(?:\n|$)` against the text following the key. -/
def matchAfterKey (cs : List Char) : Option (List Char) :=
  capTryFrom cs ((cs.takeWhile pyIsSpace).length)

/-- Leftmost occurrence of the key followed by a successful capture
(`re.search` over the whole text). -/
def searchKeyCapture (key : List Char) : List Char → Option (List Char)
  | [] => none
  | c :: rest =>
    if isPreCI key (c :: rest) then
      match matchAfterKey ((c :: rest).drop key.length) with
      | some cap => some cap
      | none => searchKeyCapture key rest
    else searchKeyCapture key rest

/-- The ordered pattern keys of `extract_subject_from_text` (the fourth,
`SUBJECT:`, is identical to the first under `re.IGNORECASE`). -/
def subjectPatternKeys : List (List Char) :=
  ["subject:".data, "re:".data, "fw:".data, "subject:".data]

/-- First pattern (in order) whose search over the text succeeds. -/
def firstCapture : List (List Char) → List Char → Option (List Char)
  | [], _ => none
  | k :: ks, cs =>
    match searchKeyCapture k cs with
    | some cap => some cap
    | none => firstCapture ks cs

/-- Fallback scan of `extract_subject_from_text`: the first stripped
line longer than 10 characters not starting with `Date:`, `From:` or
`To:`, ellipsized past 100 characters; else `"Untitled Document"`. -/
def firstMeaningfulLine : List String → String
  | [] => "Untitled Document"
  | l :: rest =>
    let line := pyStrip l
    if line.length > 10 &&
        !(pyStartsWithAny line ["Date:", "From:", "To:"]) then
      if line.length > 100 then pySlice line 100 ++ "..." else line
    else firstMeaningfulLine rest

/-- The `extract_subject_from_text` method. -/
def extract_subject_from_text (text_content : String) : String :=
  match firstCapture subjectPatternKeys text_content.data with
  | some cap =>
      let subject := pyStripChars cap
      if subject.length > 100 then String.mk (subject.take 100) else String.mk subject
  | none => firstMeaningfulLine (pySplitLines text_content)

/-! ## Document summarization (`file_routes.summarize_document`) -/

/-- Prompt built by `summarize_document` for the word limit `N`
(`data.get('word_limit', 500)`). -/
def summaryPrompt (text_content : String) (word_limit : Nat) : String :=
  "Please provide a comprehensive summary of the following document in exactly "
  ++ toString word_limit
  ++ " words. \n        \n        Document Content:\n        "
  ++ pySlice text_content 4000
  ++ "...\n        \n        Instructions:\n        - Write a clear, concise summary that captures the main points\n        - Use approximately "
  ++ toString word_limit
  ++ " words (can be slightly under or over)\n        - Structure the summary with clear paragraphs\n        - Focus on key information, decisions, and important details\n        - Write in a professional tone\n        \n        Summary:"

/-- The `word_limit` the route uses: taken verbatim from the request
body, defaulting to 500 (`data.get('word_limit', 500)`); no parsing of
any user message, no clamping, no separate minimum. -/
def summarize_word_limit (requested : Option Nat) : Nat :=
  requested.getD 500

/-- The generation payload of `summarize_document`: the prompt and the
`num_predict` budget `min(word_limit * 2, 1000)`. -/
structure SummarizePayload where
  prompt : String
  num_predict : Nat
deriving Repr

/-- Payload construction in `summarize_document`. -/
def summarize_payload (word_limit : Nat) (text_content : String) : SummarizePayload :=
  { prompt := summaryPrompt text_content word_limit,
    num_predict := min (word_limit * 2) 1000 }

/-- Response of the `summarize_document` route. -/
inductive SummarizeOutcome where
  | errorResp (status : Nat) (error : String)
  | okResp (summary : String) (word_limit : Nat) (document_subject : String)
deriving DecidableEq, Repr

/-- Python `s.replace('\n\n\n', '\n\n')` (leftmost, non-overlapping). -/
def squeezeNl : List Char → List Char
  | '\n' :: '\n' :: '\n' :: rest => '\n' :: '\n' :: squeezeNl rest
  | c :: rest => c :: squeezeNl rest
  | [] => []

/-- The `summarize_document` route handler: file/metadata/format/text
guards, then one backend round trip with the summarize payload. -/
def summarize_document (bk : Backend) (requested_word_limit : Option Nat)
    (fileExists hasMetadata isPdf : Bool) (extractedText document_subject : String) :
    SummarizeOutcome :=
  let word_limit := summarize_word_limit requested_word_limit
  if !fileExists then .errorResp 404 "File not found"
  else if !hasMetadata then .errorResp 404 "File metadata not found"
  else if !isPdf then .errorResp 400 "Unsupported file type for summarization"
  else if extractedText == "" then
    .errorResp 400 "Could not extract text for summarization"
  else
    let payload := summarize_payload word_limit extractedText
    match bk payload.prompt with
    | .ok body =>
        .okResp (String.mk (squeezeNl (pyStrip body).data)) word_limit document_subject
    | .httpError _ => .errorResp 500 "Failed to generate summary"
    | .exn => .errorResp 500 "Summarization failed"

/-! ## Sample fixtures used by witnesses and counterexamples -/

/-- A small four-turn history: user, assistant-general, user,
assistant-email-reply. -/
def sampleHist : List Msg :=
  [ { text := "u1", isUser := true, isReply := false, type := "user_message",
      timestamp := "t1" },
    { text := "a1", isUser := false, isReply := false, type := "general_response",
      timestamp := "t2" },
    { text := "u2", isUser := true, isReply := false, type := "user_message",
      timestamp := "t3" },
    { text := "e1", isUser := false, isReply := true, type := "email_reply",
      timestamp := "t4" } ]

/-- A sample thread carrying `sampleHist`, not yet marked replied. -/
def sampleThread : ThreadInfo :=
  { thread_id := "abc123", subject := "S", full_content := "Body text.",
    has_reply := false, final_reply := none, reply_generated_date := none,
    due_date := "2025-01-01", chat_history := sampleHist }

/-- A backend that always raises. -/
def failingBackend : Backend := fun _ => .exn

/-- A backend that always answers 200 with a fixed body. -/
def okBackend : Backend := fun _ => .ok "Hello there."

/-- A degenerate key-information extractor (see
`build_conversation_context` for why this is a parameter). -/
def noInfo : String → String := fun _ => ""

/-! ## Theorems -/

/-- C10: clearing the chat history of an existing thread empties the
stored history and leaves every other field of the thread record
(`thread_id`, `subject`, `full_content`, `has_reply`, `final_reply`,
`reply_generated_date`, `due_date`) unchanged. -/
theorem c10_clear_history_frame (t : ThreadInfo) :
    (clear_chat_history t).chat_history = [] ∧
    (clear_chat_history t).thread_id = t.thread_id ∧
    (clear_chat_history t).subject = t.subject ∧
    (clear_chat_history t).full_content = t.full_content ∧
    (clear_chat_history t).has_reply = t.has_reply ∧
    (clear_chat_history t).final_reply = t.final_reply ∧
    (clear_chat_history t).reply_generated_date = t.reply_generated_date ∧
    (clear_chat_history t).due_date = t.due_date :=
  ⟨rfl, rfl, rfl, rfl, rfl, rfl, rfl, rfl⟩

/-- C9 counterexample: on the empty turn sequence the summarizer
returns the literal string `"No previous conversation"`, which carries
no `total_exchanges` field at all, so the claimed equation fails there
(`floor(0/2) = 0` would require `some 0`). -/
theorem c9_counterexample :
    conversation_summary ([] : List Msg) =
      ConvSummary.noConversation "No previous conversation" ∧
    (conversation_summary ([] : List Msg)).totalExchanges? ≠
      some (([] : List Msg).length / 2) := by
  refine ⟨rfl, ?_⟩
  decide

/-- C9 (amended): for every non-empty turn sequence the summarizer's
`total_exchanges` field equals `floor(len(turns) / 2)`. -/
theorem c9_amended_total_exchanges (h : List Msg) (hne : h ≠ []) :
    (conversation_summary h).totalExchanges? = some (h.length / 2) := by
  unfold conversation_summary
  rw [if_neg (by simpa [List.isEmpty_iff] using hne)]
  rfl

/-- C9 witness: the amended theorem applied to `sampleHist`
(4 turns, 2 exchanges). -/
theorem c9_amended_total_exchanges_witness :
    sampleHist ≠ [] ∧
      (conversation_summary sampleHist).totalExchanges? = some (sampleHist.length / 2) :=
  ⟨by decide, c9_amended_total_exchanges sampleHist (by decide)⟩

/-- C8 counterexample: the claimed generation budget `min(4000, 2N)`
disagrees with the code at the requested word target `N = 1000`
(clamping would leave 1000 inside `[50, 3000]`, so the claim demands a
budget of 2000): `summarize_document` builds its payload with
`num_predict = min(2N, 1000) = 1000`. -/
theorem c8_counterexample :
    (summarize_payload 1000 "T").num_predict = 1000 ∧
    (summarize_payload 1000 "T").num_predict ≠ min 4000 (1000 * 2) := by
  constructor
  · rfl
  · decide

/-- C8 (amended): the summarization operation takes its word target
verbatim from the request body (default 500), with no parsing of any
user message, no clamping and no separate minimum, and budgets
`num_predict = min(2N, 1000)` generation units; for `N = 250` the
budget is 500, and on a 200 backend response the route echoes the
uncut `N` back. -/
theorem c8_amended_word_limit_budget :
    (∀ requested : Option Nat, summarize_word_limit requested = requested.getD 500) ∧
    (∀ (n : Nat) (t : String), (summarize_payload n t).num_predict = min (n * 2) 1000) ∧
    (summarize_payload 250 "doc").num_predict = 500 ∧
    summarize_word_limit none = 500 ∧
    summarize_document (fun _ => .ok "A summary.") (some 250) true true true "T" "subj" =
      .okResp "A summary." 250 "subj" := by
  refine ⟨fun _ => rfl, fun _ _ => rfl, rfl, rfl, ?_⟩
  decide

/-- C6: email-intent detection is a case-insensitive substring match of
the current user message against a fixed phrase list, any single match
triggering the email path, in both the route handler and the service;
`"Please write a professional reply to this"` is classified as an email
request and `"What is the weather"` is not. -/
theorem c6_email_intent_detection (m m2 k k2 : String)
    (hk : k ∈ routeEmailKeywords) (hc : hasSub (pyLower m) k = true)
    (hk2 : k2 ∈ serviceEmailKeywords) (hc2 : hasSub (pyLower m2) k2 = true) :
    routeIsEmailRequest m = true ∧
    serviceIsEmailRequest m2 = true ∧
    routeIsEmailRequest "Please write a professional reply to this" = true ∧
    serviceIsEmailRequest "Please write a professional reply to this" = true ∧
    routeIsEmailRequest "What is the weather" = false ∧
    serviceIsEmailRequest "What is the weather" = false := by
  refine ⟨?_, ?_, by decide, by decide, by decide, by decide⟩
  · exact List.any_eq_true.mpr ⟨k, hk, hc⟩
  · exact List.any_eq_true.mpr ⟨k2, hk2, hc2⟩

/-- C6 witness: the detection theorem applied to the message
`"Please write a professional reply to this"` and the matched phrase
`"professional reply"`. -/
theorem c6_email_intent_detection_witness :
    ("professional reply" ∈ routeEmailKeywords ∧
      hasSub (pyLower "Please write a professional reply to this") "professional reply" = true) ∧
    routeIsEmailRequest "Please write a professional reply to this" = true := by
  refine ⟨⟨by decide, by decide⟩, ?_⟩
  exact (c6_email_intent_detection "Please write a professional reply to this"
    "Please write a professional reply to this" "professional reply" "professional reply"
    (by decide) (by decide) (by decide) (by decide)).1

/-! ### C1: failure handling of the two generation operations -/

/-- Failure shape of the email-generation outcome conversion: one of
the two fixed error dicts, neither carrying a `response` key. -/
theorem emailResultOfOutcome_fail (o : BackendOutcome) (h : o.isFailure = true) :
    emailResultOfOutcome o =
      { success := false, error := some "Failed to generate email reply", response := none } ∨
    emailResultOfOutcome o =
      { success := false, error := some "Email generation failed", response := none } := by
  cases o with
  | ok body => simp [BackendOutcome.isFailure] at h
  | httpError code => exact Or.inl rfl
  | exn => exact Or.inr rfl

/-- Failure shape of the chat outcome conversion: the fixed fallback
dict, carrying no `error` key. -/
theorem chatResultOfOutcome_fail (o : BackendOutcome) (h : o.isFailure = true) :
    chatResultOfOutcome o =
      { success := false, error := none,
        response := some "I encountered an error. Please try again." } := by
  cases o with
  | ok body => simp [BackendOutcome.isFailure] at h
  | httpError code => rfl
  | exn => rfl

/-- Email generation under an always-failing backend returns one of the
two fixed failure dicts. -/
theorem generate_email_fail (f : String → String) (bk : Backend) (d m : String)
    (c : Option GenContext) (hfail : ∀ p, (bk p).isFailure = true) :
    generate_email_reply_with_context f bk d m c =
      { success := false, error := some "Failed to generate email reply", response := none } ∨
    generate_email_reply_with_context f bk d m c =
      { success := false, error := some "Email generation failed", response := none } := by
  unfold generate_email_reply_with_context
  exact emailResultOfOutcome_fail _ (hfail _)

/-- Chat generation of a non-email-intent message under an
always-failing backend returns the fixed fallback dict. -/
theorem generate_chat_fail (f : String → String) (bk : Backend) (m dc : String)
    (sf : ThreadInfo) (ch : List Msg) (hfail : ∀ p, (bk p).isFailure = true)
    (hne : serviceIsEmailRequest m = false) :
    generate_chat_response_with_context f bk m dc sf ch =
      { success := false, error := none,
        response := some "I encountered an error. Please try again." } := by
  unfold generate_chat_response_with_context
  rw [hne]
  simp only [Bool.false_eq_true, if_false]
  exact chatResultOfOutcome_fail _ (hfail _)

/-- Chat generation under an always-failing backend never reports
success, whatever the message. -/
theorem generate_chat_fail_success (f : String → String) (bk : Backend) (m dc : String)
    (sf : ThreadInfo) (ch : List Msg) (hfail : ∀ p, (bk p).isFailure = true) :
    (generate_chat_response_with_context f bk m dc sf ch).success = false := by
  unfold generate_chat_response_with_context
  by_cases he : serviceIsEmailRequest m
  · rw [he]
    simp only [if_true]
    rcases generate_email_fail f bk dc m
        (some { document_subject := sf.subject, chat_history := ch }) hfail with h | h <;>
      rw [h]
  · rw [Bool.not_eq_true] at he
    rw [he]
    simp only [Bool.false_eq_true, if_false]
    rw [chatResultOfOutcome_fail _ (hfail _)]

/-- C1 counterexample: at the failing call `httpError 500` the
email-generation operation returns a dict with **no** fallback text
(`response` key absent), and the chat-generation operation returns a
dict with **no** error classification (`error` key absent), so the
claimed `{success: false, error, fallback}` shape fails for both. -/
theorem c1_counterexample :
    (generate_email_reply_with_context noInfo (fun _ => .httpError 500) "d" "hello"
        none).success = false ∧
    (generate_email_reply_with_context noInfo (fun _ => .httpError 500) "d" "hello"
        none).response = none ∧
    (generate_chat_response_with_context noInfo (fun _ => .httpError 500) "hello" "d"
        sampleThread []).success = false ∧
    (generate_chat_response_with_context noInfo (fun _ => .httpError 500) "hello" "d"
        sampleThread []).error = none := by
  refine ⟨rfl, rfl, ?_, ?_⟩ <;> decide

/-- C1 (amended): every backend failure is caught (the operations are
total functions of the outcome) and reported with `success = false`,
but the two operations return different shapes: email generation
returns a fixed non-empty error classification and **no** fallback
text, while chat generation on a non-email message returns the fixed,
generic, non-empty fallback text and **no** error classification. -/
theorem c1_amended_failure_shapes (f : String → String) (bk : Backend)
    (d m m2 dc : String) (c : Option GenContext) (sf : ThreadInfo) (ch : List Msg)
    (hfail : ∀ p, (bk p).isFailure = true)
    (hm2 : serviceIsEmailRequest m2 = false) :
    ((generate_email_reply_with_context f bk d m c).success = false ∧
      (∃ e, (generate_email_reply_with_context f bk d m c).error = some e ∧ e ≠ "") ∧
      (generate_email_reply_with_context f bk d m c).response = none) ∧
    (generate_chat_response_with_context f bk m2 dc sf ch =
      { success := false, error := none,
        response := some "I encountered an error. Please try again." }) ∧
    (∀ m3 : String, (generate_chat_response_with_context f bk m3 dc sf ch).success = false) := by
  refine ⟨?_, generate_chat_fail f bk m2 dc sf ch hfail hm2,
    fun m3 => generate_chat_fail_success f bk m3 dc sf ch hfail⟩
  rcases generate_email_fail f bk d m c hfail with h | h <;> rw [h]
  · exact ⟨rfl, ⟨"Failed to generate email reply", rfl, by decide⟩, rfl⟩
  · exact ⟨rfl, ⟨"Email generation failed", rfl, by decide⟩, rfl⟩

/-- C1 witness: the amended theorem at the always-raising backend and
the concrete non-email message `"hello"`. -/
theorem c1_amended_failure_shapes_witness :
    ((∀ p, (failingBackend p).isFailure = true) ∧ serviceIsEmailRequest "hello" = false) ∧
    ((generate_email_reply_with_context noInfo failingBackend "d" "m" none).success = false ∧
      (∃ e, (generate_email_reply_with_context noInfo failingBackend "d" "m" none).error
          = some e ∧ e ≠ "") ∧
      (generate_email_reply_with_context noInfo failingBackend "d" "m" none).response = none) ∧
    (generate_chat_response_with_context noInfo failingBackend "hello" "d" sampleThread [] =
      { success := false, error := none,
        response := some "I encountered an error. Please try again." }) ∧
    (∀ m3 : String,
      (generate_chat_response_with_context noInfo failingBackend m3 "d" sampleThread
        []).success = false) :=
  ⟨⟨fun _ => rfl, by decide⟩,
    c1_amended_failure_shapes noInfo failingBackend "d" "m" "hello" "d" none sampleThread []
      (fun _ => rfl) (by decide)⟩

/-! ### C2: persisting the error turn on backend failure -/

/-- The general-conversation tail under an always-failing backend:
the fixed error turn is appended to the stored history and the
response repeats exactly its text. -/
theorem handleGeneralTurn_fail (f : String → String) (bk : Backend)
    (thread thread1 : ThreadInfo) (um now : String)
    (hfail : ∀ p, (bk p).isFailure = true) :
    handleGeneralTurn f bk thread thread1 um now =
      (some (save_chat_message thread1 (chatErrorTurn now) now),
        { success := false, response := some (chatErrorTurn now).text,
          error := some "AI processing error", is_email_reply := none, status := 200 }) := by
  simp only [handleGeneralTurn,
    generate_chat_fail_success f bk um thread.full_content thread thread1.chat_history hfail,
    Bool.false_eq_true, if_false]

/-- Appending the user turn and then the fixed error turn. -/
theorem save_user_then_error (t : ThreadInfo) (text now : String) :
    save_chat_message (save_chat_message t (mkUserMsg text now) now) (chatErrorTurn now) now =
      { t with chat_history := t.chat_history ++ [mkUserMsg text now, chatErrorTurn now] } := by
  simp [save_chat_message, mkUserMsg, chatErrorTurn, List.append_assoc]

/-- C2 (amended): in the thread handler `handle_chat_thread`, every
conversational turn whose backend calls all fail still appends the
fixed error-text assistant turn to the stored history before
responding, and the response body carries that same text; the
`regenerate_last_response` operation, by contrast, does not (see the
counterexample). -/
theorem c2_amended_error_turn_persisted (f : String → String) (bk : Backend)
    (t : ThreadInfo) (message now : String)
    (hfail : ∀ p, (bk p).isFailure = true) (hmsg : pyStrip message ≠ "") :
    handle_chat_thread f bk (some t) message now =
      (some { t with chat_history :=
          t.chat_history ++ [mkUserMsg (pyStrip message) now, chatErrorTurn now] },
        { success := false, response := some (chatErrorTurn now).text,
          error := some "AI processing error", is_email_reply := none, status := 200 }) := by
  have hb : (pyStrip message == "") = false := beq_eq_false_iff_ne.mpr hmsg
  simp only [handle_chat_thread, hb, Bool.false_eq_true, if_false]
  by_cases hre : routeIsEmailRequest (pyStrip message)
  · simp only [hre, if_true]
    have hgen := generate_email_fail f bk t.full_content (pyStrip message)
      (some { document_subject := t.subject,
              chat_history :=
                (save_chat_message t (mkUserMsg (pyStrip message) now) now).chat_history })
      hfail
    rcases hgen with h | h <;>
      simp only [h, Bool.false_eq_true, if_false] <;>
      rw [handleGeneralTurn_fail f bk t _ (pyStrip message) now hfail,
        save_user_then_error]
  · rw [Bool.not_eq_true] at hre
    simp only [hre, Bool.false_eq_true, if_false]
    rw [handleGeneralTurn_fail f bk t _ (pyStrip message) now hfail, save_user_then_error]

/-- C2 witness: the amended theorem at `sampleThread`, the message
`"hello"` and the always-raising backend. -/
theorem c2_amended_error_turn_persisted_witness :
    ((∀ p, (failingBackend p).isFailure = true) ∧ pyStrip "hello" ≠ "") ∧
    handle_chat_thread noInfo failingBackend (some sampleThread) "hello" "t5" =
      (some { sampleThread with chat_history :=
          sampleThread.chat_history ++ [mkUserMsg (pyStrip "hello") "t5", chatErrorTurn "t5"] },
        { success := false, response := some (chatErrorTurn "t5").text,
          error := some "AI processing error", is_email_reply := none, status := 200 }) :=
  ⟨⟨fun _ => rfl, by decide⟩,
    c2_amended_error_turn_persisted noInfo failingBackend sampleThread "hello" "t5"
      (fun _ => rfl) (by decide)⟩

/-- C2 counterexample: a conversational turn handled by
`regenerate_last_response` whose backend call fails: the stored history
gains **no** assistant turn (indeed it loses the trailing assistant
turn, which has already been truncated away) and the response is a bare
error, so the persisted history does not record the error text the user
saw. -/
theorem c2_counterexample :
    regenerate_last_response noInfo failingBackend (some sampleThread) "t5" =
      (some { sampleThread with chat_history := sampleThread.chat_history.dropLast },
        { success := false, response := none,
          error := some "Failed to regenerate response", is_email_reply := none,
          status := 500 }) := by
  decide

/-! ### C3: who sets the reply-marking fields, and how often -/

/-- C3 counterexample: the reply-marking fields are **not** write-once
and are **not** set only by the explicit mark-as-replied action:
repeating `mark_reply_generated` overwrites `final_reply` and
`reply_generated_date`, and a successful email-generation turn through
`handle_chat_thread` sets `has_reply` with no explicit mark-as-replied
action involved. -/
theorem c3_counterexample :
    (mark_reply_generated sampleThread "A" "d1").final_reply = some "A" ∧
    (mark_reply_generated (mark_reply_generated sampleThread "A" "d1") "B" "d2").final_reply
      = some "B" ∧
    (mark_reply_generated (mark_reply_generated sampleThread "A" "d1")
        "B" "d2").reply_generated_date
      ≠ (mark_reply_generated sampleThread "A" "d1").reply_generated_date ∧
    ((handle_chat_thread noInfo okBackend (some sampleThread) "generate reply" "t9").1.map
      (fun t => t.has_reply)) = some true ∧
    sampleThread.has_reply = false := by
  decide

/-- C3 (amended): `mark_reply_generated` sets `has_reply = true`,
`final_reply` to exactly the caller's literal text and
`reply_generated_date` to the current time on **every** invocation
(later calls overwrite earlier ones), leaving the chat history alone;
`save_chat_message` and `clear_chat_history` never touch the three
fields; the explicit `mark_replied` route invokes it exactly when
`manual_completion` is set (and `handle_chat_thread` additionally
invokes it after each successful email generation, see the
counterexample). -/
theorem c3_amended_reply_marking (t : ThreadInfo) (r now : String) (m : Msg)
    (hr : r ≠ "") :
    (mark_reply_generated t r now).has_reply = true ∧
    (mark_reply_generated t r now).final_reply = some r ∧
    (mark_reply_generated t r now).reply_generated_date = some now ∧
    (mark_reply_generated t r now).chat_history = t.chat_history ∧
    (save_chat_message t m now).has_reply = t.has_reply ∧
    (save_chat_message t m now).final_reply = t.final_reply ∧
    (save_chat_message t m now).reply_generated_date = t.reply_generated_date ∧
    (clear_chat_history t).has_reply = t.has_reply ∧
    (clear_chat_history t).final_reply = t.final_reply ∧
    (clear_chat_history t).reply_generated_date = t.reply_generated_date ∧
    (mark_replied t r true now).1 = mark_reply_generated t r now ∧
    (mark_replied t r false now).1 = t := by
  have hb : (r == "") = false := beq_eq_false_iff_ne.mpr hr
  refine ⟨rfl, rfl, rfl, rfl, rfl, rfl, rfl, rfl, rfl, rfl, ?_, ?_⟩ <;>
    simp [mark_replied, hb]

/-- C3 witness: the amended theorem at `sampleThread` with the reply
text `"text"`. -/
theorem c3_amended_reply_marking_witness :
    ("text" ≠ "") ∧
    ((mark_reply_generated sampleThread "text" "d1").has_reply = true ∧
      (mark_reply_generated sampleThread "text" "d1").final_reply = some "text" ∧
      (mark_reply_generated sampleThread "text" "d1").reply_generated_date = some "d1" ∧
      (mark_reply_generated sampleThread "text" "d1").chat_history
        = sampleThread.chat_history ∧
      (save_chat_message sampleThread (mkUserMsg "x" "d1") "d1").has_reply
        = sampleThread.has_reply ∧
      (save_chat_message sampleThread (mkUserMsg "x" "d1") "d1").final_reply
        = sampleThread.final_reply ∧
      (save_chat_message sampleThread (mkUserMsg "x" "d1") "d1").reply_generated_date
        = sampleThread.reply_generated_date ∧
      (clear_chat_history sampleThread).has_reply = sampleThread.has_reply ∧
      (clear_chat_history sampleThread).final_reply = sampleThread.final_reply ∧
      (clear_chat_history sampleThread).reply_generated_date
        = sampleThread.reply_generated_date ∧
      (mark_replied sampleThread "text" true "d1").1
        = mark_reply_generated sampleThread "text" "d1" ∧
      (mark_replied sampleThread "text" false "d1").1 = sampleThread) :=
  ⟨by decide, c3_amended_reply_marking sampleThread "text" "d1" (mkUserMsg "x" "d1")
    (by decide)⟩

/-! ### C4: the truncation step of regeneration -/

/-- The truncation step preserves the sequence of user turns. -/
theorem removeLastAi_user_turns (h : List Msg) :
    (removeLastAiResponse h).filter (fun m => m.isUser) =
      h.filter (fun m => m.isUser) := by
  rcases List.eq_nil_or_concat h with rfl | ⟨l, a, rfl⟩
  · rfl
  · unfold removeLastAiResponse
    simp only [List.concat_eq_append]
    rw [List.getLast?_concat]
    by_cases ha : a.isUser
    · simp [ha]
    · simp only [Bool.not_eq_true] at ha
      simp [ha, List.dropLast_concat, List.filter_append, List.filter_cons]

/-- C4: before re-invoking generation, `regenerate_last_response`
(through its truncation step `removeLastAiResponse`) removes exactly
the one trailing assistant turn when the last stored turn is an
assistant turn, removes nothing when the history is empty or ends in a
user turn, and never removes a user turn. -/
theorem c4_regenerate_truncation (pre h : List Msg) (a u : Msg)
    (ha : a.isUser = false) (hu : u.isUser = true) :
    removeLastAiResponse (pre ++ [a]) = pre ∧
    removeLastAiResponse (pre ++ [u]) = pre ++ [u] ∧
    removeLastAiResponse ([] : List Msg) = [] ∧
    (removeLastAiResponse h).filter (fun m => m.isUser) =
      h.filter (fun m => m.isUser) := by
  refine ⟨?_, ?_, rfl, removeLastAi_user_turns h⟩
  · unfold removeLastAiResponse
    rw [List.getLast?_concat]
    simp [ha, List.dropLast_concat]
  · unfold removeLastAiResponse
    rw [List.getLast?_concat]
    simp [hu]

/-- C4 witness: the truncation theorem at the first three turns of
`sampleHist` (ending in a user turn) with the two assistant/user sample
turns. -/
theorem c4_regenerate_truncation_witness :
    ((sampleHist.get ⟨1, by decide⟩).isUser = false ∧
      (sampleHist.get ⟨0, by decide⟩).isUser = true) ∧
    (removeLastAiResponse (sampleHist.take 2 ++ [sampleHist.get ⟨1, by decide⟩]) =
        sampleHist.take 2 ∧
      removeLastAiResponse (sampleHist.take 2 ++ [sampleHist.get ⟨0, by decide⟩]) =
        sampleHist.take 2 ++ [sampleHist.get ⟨0, by decide⟩] ∧
      removeLastAiResponse ([] : List Msg) = [] ∧
      (removeLastAiResponse sampleHist).filter (fun m => m.isUser) =
        sampleHist.filter (fun m => m.isUser)) :=
  ⟨⟨by decide, by decide⟩,
    c4_regenerate_truncation (sampleHist.take 2) sampleHist
      (sampleHist.get ⟨1, by decide⟩) (sampleHist.get ⟨0, by decide⟩)
      (by decide) (by decide)⟩

/-! ### C5: conversation-context rendering -/

/-- The classification fold of `_build_conversation_context` computes
exactly the filter/map characterisations `userLinesSpec`, `aiLinesSpec`
and `emailLinesSpec`. -/
theorem classifyHistory_eq_spec : ∀ (h : List Msg) (i : Nat),
    classifyHistory i h = (userLinesSpec i h, aiLinesSpec i h, emailLinesSpec i h)
  | [], _ => rfl
  | m :: rest, i => by
    simp only [classifyHistory, classifyHistory_eq_spec rest (i + 1)]
    by_cases hu : m.isUser
    · simp [userLinesSpec, aiLinesSpec, emailLinesSpec, List.enumFrom,
        List.filter_cons, hu]
    · by_cases hr : m.isReply <;>
        simp [userLinesSpec, aiLinesSpec, emailLinesSpec, List.enumFrom,
          List.filter_cons, hu, hr]

/-- Filtering the enumerated history keeps as many entries as filtering
the history itself. -/
theorem filter_enumFrom_length (p : Msg → Bool) : ∀ (h : List Msg) (i : Nat),
    ((h.enumFrom i).filter (fun q => p q.2)).length = (h.filter p).length
  | [], _ => rfl
  | m :: rest, i => by
    by_cases hm : p m <;>
      simp [List.enumFrom, List.filter_cons, hm, filter_enumFrom_length p rest (i + 1)]

/-- One rendered line per user turn. -/
theorem userLinesSpec_length (h : List Msg) (i : Nat) :
    (userLinesSpec i h).length = (h.filter (fun x => x.isUser)).length := by
  simp only [userLinesSpec, List.length_map]
  exact filter_enumFrom_length (fun x => x.isUser) h i

/-- Python `lst[-n:]` keeps at most `n` elements. -/
theorem lastN_le (n : Nat) (l : List String) : (lastN n l).length ≤ n := by
  simp only [lastN, List.length_drop]
  omega

/-- C5: on the empty history the context is the literal first-message
framing; on a non-empty history the rendered context consists of the
history header, **all** user-turn lines in order, the last 3
assistant-general lines, the last 2 assistant-email-reply lines (each
line carrying its 1-based ordinal and timestamp, see the `*LinesSpec`
definitions), the optional key-information block, and the current
request; and the assistant sections are capped at 3 and 2 lines while
the user section renders every user turn. -/
theorem c5_conversation_context_rendering (f : String → String) (m : String)
    (h : List Msg) (hne : h ≠ []) :
    build_conversation_context f [] m =
      "This is the first message in our conversation: " ++ m ∧
    build_conversation_context f h m =
      pyJoin "\n"
        (["=== COMPLETE CONVERSATION HISTORY ==="]
          ++ (if (userLinesSpec 1 h).isEmpty then []
              else "\n=== ALL USER REQUESTS AND INFORMATION ===" :: userLinesSpec 1 h)
          ++ (if (aiLinesSpec 1 h).isEmpty then []
              else "\n=== PREVIOUS AI RESPONSES ===" :: lastN 3 (aiLinesSpec 1 h))
          ++ (if (emailLinesSpec 1 h).isEmpty then []
              else "\n=== PREVIOUSLY GENERATED EMAILS ===" :: lastN 2 (emailLinesSpec 1 h))
          ++ (if f (pyJoin " " ((h.filter (fun x => x.isUser)).map (fun x => x.text))
                    ++ " " ++ m) == "" then []
              else ["\n=== KEY INFORMATION TO REMEMBER ===",
                    f (pyJoin " " ((h.filter (fun x => x.isUser)).map (fun x => x.text))
                      ++ " " ++ m)])
          ++ ["\n=== CURRENT REQUEST ===", "Current message: " ++ m]) ∧
    (userLinesSpec 1 h).length = (h.filter (fun x => x.isUser)).length ∧
    (lastN 3 (aiLinesSpec 1 h)).length ≤ 3 ∧
    (lastN 2 (emailLinesSpec 1 h)).length ≤ 2 := by
  refine ⟨rfl, ?_, userLinesSpec_length h 1, lastN_le 3 _, lastN_le 2 _⟩
  have hne' : h.isEmpty = false := by simpa [List.isEmpty_iff] using hne
  simp only [build_conversation_context, hne', Bool.false_eq_true, if_false,
    classifyHistory_eq_spec h 1]

/-- C5 witness: the rendering theorem at the four-turn `sampleHist`
with a constant key-information extractor. -/
theorem c5_conversation_context_rendering_witness :
    sampleHist ≠ [] ∧
    (build_conversation_context (fun _ => "KEY") [] "hello" =
      "This is the first message in our conversation: " ++ "hello" ∧
    build_conversation_context (fun _ => "KEY") sampleHist "hello" =
      pyJoin "\n"
        (["=== COMPLETE CONVERSATION HISTORY ==="]
          ++ (if (userLinesSpec 1 sampleHist).isEmpty then []
              else "\n=== ALL USER REQUESTS AND INFORMATION ==="
                :: userLinesSpec 1 sampleHist)
          ++ (if (aiLinesSpec 1 sampleHist).isEmpty then []
              else "\n=== PREVIOUS AI RESPONSES ===" :: lastN 3 (aiLinesSpec 1 sampleHist))
          ++ (if (emailLinesSpec 1 sampleHist).isEmpty then []
              else "\n=== PREVIOUSLY GENERATED EMAILS ==="
                :: lastN 2 (emailLinesSpec 1 sampleHist))
          ++ (if (fun _ => "KEY")
                  (pyJoin " "
                      ((sampleHist.filter (fun x => x.isUser)).map (fun x => x.text))
                    ++ " " ++ "hello") == "" then []
              else ["\n=== KEY INFORMATION TO REMEMBER ===",
                    (fun _ => "KEY")
                      (pyJoin " "
                          ((sampleHist.filter (fun x => x.isUser)).map (fun x => x.text))
                        ++ " " ++ "hello")])
          ++ ["\n=== CURRENT REQUEST ===", "Current message: " ++ "hello"]) ∧
    (userLinesSpec 1 sampleHist).length =
      (sampleHist.filter (fun x => x.isUser)).length ∧
    (lastN 3 (aiLinesSpec 1 sampleHist)).length ≤ 3 ∧
    (lastN 2 (emailLinesSpec 1 sampleHist)).length ≤ 2) :=
  ⟨by decide,
    c5_conversation_context_rendering (fun _ => "KEY") "hello" sampleHist (by decide)⟩


/-! ### C7: subject extraction -/

/-- `takeWhile` stops exactly at the first failing element. -/
theorem takeWhile_all_stop (p : Char → Bool) : ∀ (l : List Char) (x : Char) (r : List Char),
    (∀ y ∈ l, p y = true) → p x = false → (l ++ x :: r).takeWhile p = l
  | [], x, r, _, hx => by simp [List.takeWhile_cons, hx]
  | a :: as, x, r, hl, hx => by
    have ha := hl a (List.mem_cons_self a as)
    simp only [List.cons_append, List.takeWhile_cons, ha, if_true]
    rw [takeWhile_all_stop p as x r (fun y hy => hl y (List.mem_cons_of_mem a hy)) hx]

/-- A case-insensitive key match survives appending to the text. -/
theorem isPreCI_append : ∀ (key l1 l2 : List Char),
    isPreCI key l1 = true → isPreCI key (l1 ++ l2) = true
  | [], _, _, _ => rfl
  | _ :: _, [], _, h => by simp [isPreCI] at h
  | k :: ks, a :: as, l2, h => by
    simp only [isPreCI, Bool.and_eq_true] at h
    simp only [List.cons_append, isPreCI, Bool.and_eq_true]
    exact ⟨h.1, isPreCI_append ks as l2 h.2⟩

/-- `searchKeyCapture` answers at a position where both the key and the
capture match. -/
theorem searchKeyCapture_here (key : List Char) (x : Char) (xs cap : List Char)
    (h1 : isPreCI key (x :: xs) = true)
    (h2 : matchAfterKey ((x :: xs).drop key.length) = some cap) :
    searchKeyCapture key (x :: xs) = some cap := by
  show (if isPreCI key (x :: xs) then
      match matchAfterKey ((x :: xs).drop key.length) with
      | some cap => some cap
      | none => searchKeyCapture key xs
    else searchKeyCapture key xs) = some cap
  rw [h1, h2]
  rfl

/-- Backtracking step at depth 1 when the run after one consumed
character is nonempty. -/
theorem capTryFrom_one (l run : List Char)
    (h : (l.drop 1).takeWhile (fun y => !(y == '\n')) = run)
    (hne : run.isEmpty = false) :
    capTryFrom l 1 = some run := by
  have hstep : capTryFrom l 1 =
      if ((l.drop 1).takeWhile (fun y => !(y == '\n'))).isEmpty then capTryFrom l 0
      else some ((l.drop 1).takeWhile (fun y => !(y == '\n'))) := rfl
  rw [hstep, h, hne]
  rfl

/-- The `\s*(.+?)(?:\n|$)` tail match after the key, in the case
`space, captured non-whitespace-led run, newline, remainder`. -/
theorem matchAfterKey_space_run (c : Char) (cs rd : List Char)
    (hc : pyIsSpace c = false) (hnl : ∀ x ∈ c :: cs, (x == '\n') = false) :
    matchAfterKey (' ' :: (c :: cs ++ '\n' :: rd)) = some (c :: cs) := by
  have hrun : ((c :: cs) ++ '\n' :: rd).takeWhile (fun y => !(y == '\n')) = c :: cs := by
    refine takeWhile_all_stop _ (c :: cs) '\n' rd (fun y hy => ?_) (by decide)
    simp [hnl y hy]
  have hws : (' ' :: (c :: cs ++ '\n' :: rd)).takeWhile pyIsSpace = [' '] := by
    rw [List.takeWhile_cons, if_pos (show pyIsSpace ' ' = true from by decide),
      List.cons_append, List.takeWhile_cons, hc]
    simp
  unfold matchAfterKey
  rw [hws]
  show capTryFrom (' ' :: (c :: cs ++ '\n' :: rd)) 1 = some (c :: cs)
  refine capTryFrom_one _ _ ?_ rfl
  simpa using hrun

set_option maxRecDepth 4000 in
/-- C7: subject extraction honours the ordered `Subject:`-style
patterns with the capture kept to at most 100 characters — the general
conjunct covers every document text of the shape
`"Subject: <line>\n<rest>"` for a stripped, newline-free line of at
most 100 characters and an arbitrary remainder — falls back to the
first stripped line longer than 10 characters not starting with
`Date:`/`From:`/`To:` (ellipsized past 100 characters), and returns the
literal `"Untitled Document"` when nothing qualifies; in particular
`"Subject: Q3 Budget Review\n..."` yields `"Q3 Budget Review"`. -/
theorem c7_subject_extraction (c : Char) (cs : List Char) (rest : String)
    (hc : pyIsSpace c = false) (hnl : ∀ x ∈ c :: cs, (x == '\n') = false)
    (hstrip : pyStripChars (c :: cs) = c :: cs) (hlen : (c :: cs).length ≤ 100) :
    extract_subject_from_text ("Subject: " ++ String.mk (c :: cs) ++ "\n" ++ rest) =
      String.mk (c :: cs) ∧
    extract_subject_from_text "Subject: Q3 Budget Review\nDear team, here is the update."
      = "Q3 Budget Review" ∧
    extract_subject_from_text "hi\nThis is a meaningful line\nmore text"
      = "This is a meaningful line" ∧
    extract_subject_from_text "short\nDate: 2024-01-01\ntiny" = "Untitled Document" ∧
    extract_subject_from_text (String.mk (List.replicate 120 'a'))
      = String.mk (List.replicate 100 'a') ++ "..." := by
  refine ⟨?_, by decide, by decide, by decide, by decide⟩
  have hsd : "Subject: ".data = ['S', 'u', 'b', 'j', 'e', 'c', 't', ':', ' '] := rfl
  have hnd : ("\n" : String).data = ['\n'] := rfl
  have hdata : ("Subject: " ++ String.mk (c :: cs) ++ "\n" ++ rest).data
      = 'S' :: 'u' :: 'b' :: 'j' :: 'e' :: 'c' :: 't' :: ':' :: ' ' ::
          (c :: cs ++ '\n' :: rest.data) := by
    simp [String.data_append, hsd, hnd]
  have h0 : isPreCI "subject:".data ['S', 'u', 'b', 'j', 'e', 'c', 't', ':', ' '] = true := by
    decide
  have hkey : isPreCI "subject:".data
      ('S' :: 'u' :: 'b' :: 'j' :: 'e' :: 'c' :: 't' :: ':' :: ' ' ::
        (c :: cs ++ '\n' :: rest.data)) = true := by
    simpa using isPreCI_append "subject:".data ['S', 'u', 'b', 'j', 'e', 'c', 't', ':', ' ']
      (c :: cs ++ '\n' :: rest.data) h0
  have hmatch : matchAfterKey
      (('S' :: 'u' :: 'b' :: 'j' :: 'e' :: 'c' :: 't' :: ':' :: ' ' ::
        (c :: cs ++ '\n' :: rest.data)).drop ("subject:".data).length)
      = some (c :: cs) := by
    show matchAfterKey (' ' :: (c :: cs ++ '\n' :: rest.data)) = some (c :: cs)
    exact matchAfterKey_space_run c cs rest.data hc hnl
  have hsearch := searchKeyCapture_here "subject:".data 'S'
    ('u' :: 'b' :: 'j' :: 'e' :: 'c' :: 't' :: ':' :: ' ' ::
      (c :: cs ++ '\n' :: rest.data)) (c :: cs) hkey hmatch
  have hfirst : firstCapture subjectPatternKeys
      ('S' :: 'u' :: 'b' :: 'j' :: 'e' :: 'c' :: 't' :: ':' :: ' ' ::
        (c :: cs ++ '\n' :: rest.data)) = some (c :: cs) := by
    show (match searchKeyCapture "subject:".data
        ('S' :: 'u' :: 'b' :: 'j' :: 'e' :: 'c' :: 't' :: ':' :: ' ' ::
          (c :: cs ++ '\n' :: rest.data)) with
      | some cap => some cap
      | none => firstCapture ["re:".data, "fw:".data, "subject:".data]
          ('S' :: 'u' :: 'b' :: 'j' :: 'e' :: 'c' :: 't' :: ':' :: ' ' ::
            (c :: cs ++ '\n' :: rest.data))) = some (c :: cs)
    rw [hsearch]
  unfold extract_subject_from_text
  rw [hdata, hfirst]
  show (if (pyStripChars (c :: cs)).length > 100 then
      String.mk ((pyStripChars (c :: cs)).take 100)
    else String.mk (pyStripChars (c :: cs))) = String.mk (c :: cs)
  rw [hstrip, if_neg (by omega)]

set_option maxRecDepth 4000 in
/-- C7 witness: the extraction theorem at the line
`"Q3 Budget Review"` with remainder `"more"`. -/
theorem c7_subject_extraction_witness :
    (pyIsSpace 'Q' = false ∧
      (∀ x ∈ 'Q' :: "3 Budget Review".data, (x == '\n') = false) ∧
      pyStripChars ('Q' :: "3 Budget Review".data) = 'Q' :: "3 Budget Review".data ∧
      ('Q' :: "3 Budget Review".data).length ≤ 100) ∧
    extract_subject_from_text
        ("Subject: " ++ String.mk ('Q' :: "3 Budget Review".data) ++ "\n" ++ "more") =
      String.mk ('Q' :: "3 Budget Review".data) :=
  ⟨⟨by decide, by decide, by decide, by decide⟩,
    (c7_subject_extraction 'Q' "3 Budget Review".data "more" (by decide) (by decide)
      (by decide) (by decide)).1⟩
